import Mathlib

/-!
# 360° panorama viewers: orientation controller, modal shell and page-load scan

A shallow embedding of `js/image_panorama_viewer.js` and
`js/video_panorama_viewer.js`.

* JavaScript numbers are modelled by an arbitrary linearly ordered field `α`
  (the reals, or the rationals when a definition is to be evaluated).  Rounding
  and `NaN` are outside the model.
* `Math.sin`, `Math.cos` and `THREE.MathUtils.degToRad` belong to the platform,
  not to the repository; the functions that use them take them as a parameter
  (`MathLib`), and `realMath` is their meaning over the reals.
* A handler that throws keeps the assignments it made before the throw, so a
  handler returns the state it leaves behind together with a `threw` flag.
-/

namespace Pano

/-! ## Platform values -/

/-- The numeric library functions used by the per-frame update. -/
structure MathLib (α : Type) where
  /-- `Math.sin` -/
  sin : α → α
  /-- `Math.cos` -/
  cos : α → α
  /-- `THREE.MathUtils.degToRad` -/
  degToRad : α → α

/-- The library functions over the reals: `degToRad d = d * (π / 180)`. -/
noncomputable def realMath : MathLib ℝ where
  sin := Real.sin
  cos := Real.cos
  degToRad := fun d => d * (Real.pi / 180)

/-- A `THREE.Vector3`. -/
structure Vector3 (α : Type) where
  x : α
  y : α
  z : α
deriving DecidableEq, Repr

/-- One entry of a touch event's `touches` list. -/
structure Touch (α : Type) where
  clientX : α
  clientY : α
deriving DecidableEq, Repr

/-- The part of a DOM event the handlers read.  A property that the event
object does not have reads as `undefined`, modelled by `none`: a mouse event
has `clientX`/`clientY` and no `touches`; a touch event has `touches` and no
`clientX`/`clientY`. -/
structure PointerEvent (α : Type) where
  clientX : Option α
  clientY : Option α
  touches : Option (List (Touch α))
  cancelable : Bool
deriving DecidableEq, Repr

/-- A mouse event at `(x, y)`: numeric coordinates, no `touches` property. -/
def mouseEvent {α : Type} (x y : α) : PointerEvent α :=
  { clientX := some x, clientY := some y, touches := none, cancelable := true }

/-- A touch event with the given touch points: no `clientX`/`clientY`. -/
def touchEvent {α : Type} (ts : List (Touch α)) : PointerEvent α :=
  { clientX := none, clientY := none, touches := some ts, cancelable := true }

/-- The value of `event.touches[0]` when reading a property of it succeeds;
`none` stands for the `TypeError` raised when `event.touches` is `undefined`
or the list is empty. -/
def firstTouch {α : Type} (e : PointerEvent α) : Option (Touch α) :=
  match e.touches with
  | some (t :: _) => some t
  | _ => none

/-- The expression `event.clientX || event.touches[0].clientX`.  The left
operand is returned when it is truthy (a number other than zero); otherwise
the right operand is evaluated.  `none` is a thrown `TypeError`. -/
def resolveClientX {α : Type} [LinearOrderedField α] (e : PointerEvent α) : Option α :=
  match e.clientX with
  | some x => if x = 0 then (firstTouch e).map Touch.clientX else some x
  | none => (firstTouch e).map Touch.clientX

/-- The expression `event.clientY || event.touches[0].clientY`. -/
def resolveClientY {α : Type} [LinearOrderedField α] (e : PointerEvent α) : Option α :=
  match e.clientY with
  | some y => if y = 0 then (firstTouch e).map Touch.clientY else some y
  | none => (firstTouch e).map Touch.clientY

/-- What a handler call leaves behind: the state after it, whether it ended
by throwing, and whether it called `event.preventDefault()`. -/
structure Outcome (σ : Type) where
  state : σ
  threw : Bool
  defaultPrevented : Bool
deriving DecidableEq, Repr

/-- What one run of a per-frame callback leaves behind: the state after it,
whether it asked for another animation frame, and whether it ended by
throwing. -/
structure Frame (σ : Type) where
  state : σ
  frameRequested : Bool
  threw : Bool
deriving DecidableEq, Repr

/-! ## Image viewer: the closure state of one `initImagePanoramaViewer` call -/

namespace Image

/-- The local variables of one viewer (section 4 of `initImagePanoramaViewer`)
and its camera's target. -/
structure Viewer (α : Type) where
  isUserInteracting : Bool
  onPointerDownPointerX : α
  onPointerDownPointerY : α
  lon : α
  onPointerDownLon : α
  lat : α
  onPointerDownLat : α
  phi : α
  theta : α
  cameraTarget : Vector3 α
deriving DecidableEq, Repr

/-- The variables as declared, with `camera.target = new Vector3(0, 0, 0)`. -/
def Viewer.initial {α : Type} [LinearOrderedField α] : Viewer α :=
  { isUserInteracting := false
    onPointerDownPointerX := 0
    onPointerDownPointerY := 0
    lon := 180
    onPointerDownLon := 0
    lat := 0
    onPointerDownLat := 0
    phi := 0
    theta := 0
    cameraTarget := ⟨0, 0, 0⟩ }

/-- The drag anchor: the four `onPointerDown…` variables. -/
def Viewer.anchor {α : Type} (v : Viewer α) : α × α × α × α :=
  (v.onPointerDownPointerX, v.onPointerDownPointerY, v.onPointerDownLon, v.onPointerDownLat)

/-- The handler `onPointerStart(event)` of the image viewer. -/
def onPointerStart {α : Type} [LinearOrderedField α] (v : Viewer α) (e : PointerEvent α) :
    Outcome (Viewer α) :=
  let v1 := { v with isUserInteracting := true }
  match resolveClientX e with
  | none => ⟨v1, true, false⟩
  | some clientX =>
    match resolveClientY e with
    | none => ⟨v1, true, false⟩
    | some clientY =>
      ⟨{ v1 with
          onPointerDownPointerX := clientX
          onPointerDownPointerY := clientY
          onPointerDownLon := v1.lon
          onPointerDownLat := v1.lat },
        false, e.cancelable⟩

/-- The handler `onPointerMove(event)` of the image viewer. -/
def onPointerMove {α : Type} [LinearOrderedField α] (v : Viewer α) (e : PointerEvent α) :
    Outcome (Viewer α) :=
  if !v.isUserInteracting then ⟨v, false, false⟩
  else
    match resolveClientX e with
    | none => ⟨v, true, false⟩
    | some clientX =>
      match resolveClientY e with
      | none => ⟨v, true, false⟩
      | some clientY =>
        ⟨{ v with
            lon := (v.onPointerDownPointerX - clientX) * 0.1 + v.onPointerDownLon
            lat := (clientY - v.onPointerDownPointerY) * 0.1 + v.onPointerDownLat },
          false, false⟩

/-- The handler `onPointerUp()` of the image viewer. -/
def onPointerUp {α : Type} (v : Viewer α) : Viewer α :=
  { v with isUserInteracting := false }

/-- The function `update()` of the image viewer (the call
`renderer.render(scene, camera)` draws and changes none of these variables). -/
def update {α : Type} [LinearOrderedField α] (M : MathLib α) (v : Viewer α) : Viewer α :=
  let lat := max (-85) (min 85 v.lat)
  let phi := M.degToRad (90 - lat)
  let theta := M.degToRad v.lon
  { v with
    lat := lat
    phi := phi
    theta := theta
    cameraTarget :=
      { x := 500 * M.sin phi * M.cos theta
        y := 500 * M.cos phi
        z := 500 * M.sin phi * M.sin theta } }

/-- The function `animate()` of the image viewer: request the next frame, then
`update()`. -/
def animate {α : Type} [LinearOrderedField α] (M : MathLib α) (v : Viewer α) :
    Frame (Viewer α) :=
  ⟨update M v, true, false⟩

end Image

/-! ## Video viewer: module-level state, modal shell and listener registry -/

namespace Video

/-- The three named functions the video viewer registers as drag listeners. -/
inductive Handler where
  | onPointerStart
  | onPointerMove
  | onPointerUp
deriving DecidableEq, Repr

/-- One entry of an event target's listener list: the event type and the
callback (every registration in the file uses the default `capture = false`). -/
structure Listener where
  type : String
  callback : Handler
deriving DecidableEq, Repr

/-- The platform's `target.addEventListener(type, callback)`: the DOM standard
appends the listener only when the list holds no listener with the same type,
callback and capture flag. -/
def addEventListener (ls : List Listener) (type : String) (callback : Handler) :
    List Listener :=
  if ⟨type, callback⟩ ∈ ls then ls else ls ++ [⟨type, callback⟩]

/-- The platform's `target.removeEventListener(type, callback)`: removes the
listener with that type and callback, if the list holds one. -/
def removeEventListener (ls : List Listener) (type : String) (callback : Handler) :
    List Listener :=
  ls.erase ⟨type, callback⟩

/-- The `<video>` element created by `openModal`. -/
structure VideoElement where
  src : String
  paused : Bool
deriving DecidableEq, Repr

/-- The module-level variables of the video viewer together with the parts of
the page they act on. -/
structure State (α : Type) where
  isUserInteracting : Bool
  lon : α
  lat : α
  phi : α
  theta : α
  onPointerDownPointerX : α
  onPointerDownPointerY : α
  onPointerDownLon : α
  onPointerDownLat : α
  /-- `camera.target`; `none` while the variable `camera` is unassigned -/
  camera : Option (Vector3 α)
  /-- whether the variable `renderer` has been assigned -/
  renderer : Bool
  video360 : Option VideoElement
  /-- `document.getElementById('videoModal').style.display` -/
  modalDisplay : String
  /-- number of children of `#video360Container` -/
  containerChildren : Nat
  /-- listener list of `#video360Container` -/
  containerListeners : List Listener
  /-- listener list of `document` (drag callbacks) -/
  documentListeners : List Listener
deriving DecidableEq, Repr

/-- The variables as declared at the top of the file, on a page whose modal
has no inline `display` and whose container is empty. -/
def State.initial {α : Type} [LinearOrderedField α] : State α :=
  { isUserInteracting := false
    lon := 180
    lat := 0
    phi := 0
    theta := 0
    onPointerDownPointerX := 0
    onPointerDownPointerY := 0
    onPointerDownLon := 0
    onPointerDownLat := 0
    camera := none
    renderer := false
    video360 := none
    modalDisplay := ""
    containerChildren := 0
    containerListeners := []
    documentListeners := [] }

/-- The drag anchor: the four `onPointerDown…` variables. -/
def State.anchor {α : Type} (s : State α) : α × α × α × α :=
  (s.onPointerDownPointerX, s.onPointerDownPointerY, s.onPointerDownLon, s.onPointerDownLat)

/-- The function `onPointerStart(event)` of the video viewer. -/
def onPointerStart {α : Type} [LinearOrderedField α] (s : State α) (e : PointerEvent α) :
    Outcome (State α) :=
  let s1 := { s with isUserInteracting := true }
  match resolveClientX e with
  | none => ⟨s1, true, false⟩
  | some clientX =>
    match resolveClientY e with
    | none => ⟨s1, true, false⟩
    | some clientY =>
      ⟨{ s1 with
          onPointerDownPointerX := clientX
          onPointerDownPointerY := clientY
          onPointerDownLon := s1.lon
          onPointerDownLat := s1.lat },
        false, false⟩

/-- The function `onPointerMove(event)` of the video viewer. -/
def onPointerMove {α : Type} [LinearOrderedField α] (s : State α) (e : PointerEvent α) :
    Outcome (State α) :=
  if !s.isUserInteracting then ⟨s, false, false⟩
  else
    match resolveClientX e with
    | none => ⟨s, true, false⟩
    | some clientX =>
      match resolveClientY e with
      | none => ⟨s, true, false⟩
      | some clientY =>
        ⟨{ s with
            lon := (s.onPointerDownPointerX - clientX) * 0.1 + s.onPointerDownLon
            lat := (clientY - s.onPointerDownPointerY) * 0.1 + s.onPointerDownLat },
          false, false⟩

/-- The function `onPointerUp()` of the video viewer. -/
def onPointerUp {α : Type} (s : State α) : State α :=
  { s with isUserInteracting := false }

/-- The function `animate()` of the video viewer: nothing happens while the
modal's display is `'none'`; otherwise the next frame is requested, `lat`,
`phi` and `theta` are assigned and the camera target is recomputed.  With
`camera` unassigned the assignment `camera.target.x = …` throws a `TypeError`;
with `renderer` unassigned the final `renderer.render(scene, camera)` does
(otherwise it draws and changes none of these variables). -/
def animate {α : Type} [LinearOrderedField α] (M : MathLib α) (s : State α) :
    Frame (State α) :=
  if s.modalDisplay = "none" then ⟨s, false, false⟩
  else
    let lat := max (-85) (min 85 s.lat)
    let phi := M.degToRad (90 - lat)
    let theta := M.degToRad s.lon
    let s1 := { s with lat := lat, phi := phi, theta := theta }
    match s.camera with
    | none => ⟨s1, true, true⟩
    | some _ =>
      ⟨{ s1 with
          camera :=
            some
              { x := 500 * M.sin phi * M.cos theta
                y := 500 * M.cos phi
                z := 500 * M.sin phi * M.sin theta } },
        true, !s.renderer⟩

/-- The function `openModal(url)`. -/
def openModal {α : Type} [LinearOrderedField α] (M : MathLib α) (s : State α)
    (url : String) : Frame (State α) :=
  animate M
    { s with
      lon := 180
      lat := 0
      modalDisplay := "flex"
      containerChildren := (if s.renderer then 0 else s.containerChildren) + 1
      video360 := some { src := url, paused := false }
      camera := some ⟨0, 0, 0⟩
      renderer := true
      containerListeners :=
        addEventListener (addEventListener s.containerListeners "mousedown" .onPointerStart)
          "touchstart" .onPointerStart
      documentListeners :=
        addEventListener
          (addEventListener
            (addEventListener (addEventListener s.documentListeners "mousemove" .onPointerMove)
              "mouseup" .onPointerUp)
            "touchmove" .onPointerMove)
          "touchend" .onPointerUp }

/-- The function `closeModal()`. -/
def closeModal {α : Type} (s : State α) : State α :=
  { s with
    modalDisplay := "none"
    video360 := s.video360.map fun v => { v with paused := true }
    documentListeners :=
      removeEventListener
        (removeEventListener (removeEventListener s.documentListeners "mousedown" .onPointerStart)
          "mousemove" .onPointerMove)
        "mouseup" .onPointerUp }

/-- The click listener of `#resetViewBtn`. -/
def resetView {α : Type} [LinearOrderedField α] (s : State α) : State α :=
  { s with lon := 180, lat := 0 }

/-- Calling one registered callback with an event. -/
def invoke {α : Type} [LinearOrderedField α] (h : Handler) (s : State α)
    (e : PointerEvent α) : Outcome (State α) :=
  match h with
  | .onPointerStart => onPointerStart s e
  | .onPointerMove => onPointerMove s e
  | .onPointerUp => ⟨onPointerUp s, false, false⟩

/-- The callbacks a listener list holds for an event type, in registration
order. -/
def callbacksFor (ls : List Listener) (type : String) : List Handler :=
  (ls.filter fun l => l.type = type).map Listener.callback

/-- Calling a list of callbacks in order; a callback that throws does not stop
the ones after it. -/
def invokeAll {α : Type} [LinearOrderedField α] (hs : List Handler) (s : State α)
    (e : PointerEvent α) : Outcome (State α) :=
  hs.foldl
    (fun acc h =>
      let r := invoke h acc.state e
      ⟨r.state, acc.threw || r.threw, acc.defaultPrevented || r.defaultPrevented⟩)
    ⟨s, false, false⟩

/-- Where a dispatched event is targeted: inside `#video360Container`, or
elsewhere in the document. -/
inductive Target where
  | container
  | document
deriving DecidableEq, Repr

/-- The callbacks the platform calls when a (bubbling) mouse or touch event of
the given type is dispatched: the listeners of the container first when the
target is inside it, then the listeners of `document`. -/
def dispatchCallbacks {α : Type} (s : State α) (target : Target) (type : String) :
    List Handler :=
  (match target with
    | .container => callbacksFor s.containerListeners type
    | .document => []) ++ callbacksFor s.documentListeners type

/-- The platform's event dispatch: call the callbacks of `dispatchCallbacks`
in order. -/
def dispatch {α : Type} [LinearOrderedField α] (s : State α) (target : Target)
    (type : String) (e : PointerEvent α) : Outcome (State α) :=
  invokeAll (dispatchCallbacks s target type) s e

/-- What can happen on the page of the video viewer: the two modal calls, a
click on the reset-view button, a mouse or touch event dispatched at a target,
and one run of the animation-frame callback. -/
inductive Action (α : Type) where
  | openModal (url : String)
  | closeModal
  | resetView
  | event (target : Target) (type : String) (e : PointerEvent α)
  | frame

/-- Performing one action (a handler that throws leaves the state it reached). -/
def Action.apply {α : Type} [LinearOrderedField α] (M : MathLib α) (s : State α) :
    Action α → State α
  | .openModal url => (Video.openModal M s url).state
  | .closeModal => Video.closeModal s
  | .resetView => Video.resetView s
  | .event target type e => (Video.dispatch s target type e).state
  | .frame => (Video.animate M s).state

/-- Performing a sequence of actions, first to last. -/
def run {α : Type} [LinearOrderedField α] (M : MathLib α) (s : State α)
    (acts : List (Action α)) : State α :=
  acts.foldl (Action.apply M) s

end Video

/-! ## Image viewer: construction and the page-load scan -/

namespace Image

/-- The three closures each viewer registers on its container. -/
inductive Handler where
  | onPointerStart
  | onPointerMove
  | onPointerUp
deriving DecidableEq, Repr

/-- One listener registered on a container: the event type, which closure, and
of which viewer (each `initImagePanoramaViewer` call creates its own
closures). -/
structure Listener where
  type : String
  callback : Handler
  viewer : Nat
deriving DecidableEq, Repr

/-- The result of `element.closest('.comparison-row')` when it is an element:
whether `row.querySelector('.input-perspective-img')` finds an image. -/
structure Row where
  hasInputImg : Bool
deriving DecidableEq, Repr

/-- An element of the document, as far as the script reads or writes it. -/
structure Element where
  id : String
  /-- whether the element has the class `pano-image` -/
  panoImage : Bool
  /-- `element.getAttribute('data-image')`; `none` is `null` -/
  dataImage : Option String
  /-- `element.closest('.comparison-row')`; `none` is `null` -/
  row : Option Row
  /-- number of canvases appended to the element -/
  canvases : Nat
  listeners : List Listener
deriving DecidableEq, Repr

/-- One constructed viewer: its scene (sphere textured with `imagePath`),
camera and renderer, bound to the container at position `container` of the
document, with its local variables. -/
structure Instance (α : Type) where
  container : Nat
  imagePath : String
  vars : Viewer α
deriving DecidableEq, Repr

/-- The page: its elements in tree order, and what the script has produced. -/
structure Page (α : Type) where
  elements : List Element
  /-- messages passed to `console.error`, oldest first -/
  consoleErrors : List String
  viewers : List (Instance α)
  /-- number of `resize` listeners registered on `window` -/
  resizeListeners : Nat
  /-- number of `requestAnimationFrame(animate)` calls made -/
  frameRequests : Nat
  /-- assignments `inputImg.src = value`, as (position of the pano element,
  value), oldest first -/
  srcAssignments : List (Nat × String)
deriving DecidableEq, Repr

/-- The platform's `document.getElementById(id)`: the position of the first
element in tree order with that (non-empty) id; `none` is `null`. -/
def getElementById (els : List Element) (id : String) : Option Nat :=
  if id = "" then none
  else
    match els.findIdx? (fun el => el.id = id) with
    | some i => some i
    | none => none

/-- The platform's `querySelectorAll('.pano-image')`: the positions of the
elements with that class, in tree order. -/
def querySelectorAllPanoImage (els : List Element) : List Nat :=
  (List.range els.length).filter fun i =>
    match els[i]? with
    | some el => el.panoImage
    | none => false

/-- Replacing the first occurrence of `pat` in a list of characters. -/
def replaceFirstChars (pat rep : List Char) : List Char → List Char
  | [] => []
  | c :: cs =>
    if pat.isPrefixOf (c :: cs) then rep ++ (c :: cs).drop pat.length
    else c :: replaceFirstChars pat rep cs

/-- The platform's `s.replace(pat, rep)` for a non-empty string pattern and a
replacement without `$`: the first occurrence is replaced. -/
def replaceFirst (s pat rep : String) : String :=
  String.mk (replaceFirstChars pat.data rep.data s.data)

/-- The message `initImagePanoramaViewer` logs for a missing container. -/
def containerNotFound (containerId : String) : String :=
  "initImagePanoramaViewer: Container '" ++ containerId ++ "' not found."

/-- The seven listeners `initImagePanoramaViewer` registers on the container,
in order, for the viewer numbered `n`. -/
def containerListeners (n : Nat) : List Listener :=
  [⟨"mousedown", .onPointerStart, n⟩, ⟨"mousemove", .onPointerMove, n⟩,
    ⟨"mouseup", .onPointerUp, n⟩, ⟨"mouseleave", .onPointerUp, n⟩,
    ⟨"touchstart", .onPointerStart, n⟩, ⟨"touchmove", .onPointerMove, n⟩,
    ⟨"touchend", .onPointerUp, n⟩]

/-- The function `initImagePanoramaViewer(containerId, imagePath)`. -/
def initImagePanoramaViewer {α : Type} [LinearOrderedField α] (M : MathLib α) (p : Page α)
    (containerId imagePath : String) : Outcome (Page α) :=
  match getElementById p.elements containerId with
  | none =>
    ⟨{ p with consoleErrors := p.consoleErrors ++ [containerNotFound containerId] }, false, false⟩
  | some c =>
    let n := p.viewers.length
    let f := animate M Viewer.initial
    ⟨{ p with
        elements :=
          match p.elements[c]? with
          | some el =>
            p.elements.set c
              { el with canvases := el.canvases + 1, listeners := el.listeners ++ containerListeners n }
          | none => p.elements
        viewers := p.viewers ++ [{ container := c, imagePath := imagePath, vars := f.state }]
        resizeListeners := p.resizeListeners + 1
        frameRequests := p.frameRequests + (if f.frameRequested then 1 else 0) },
      false, false⟩

/-- The callback the `DOMContentLoaded` listener passes to `forEach`, for the
pano element at position `pos` with loop index `index`. -/
def forEachBody {α : Type} [LinearOrderedField α] (M : MathLib α) (p : Page α)
    (index pos : Nat) : Outcome (Page α) :=
  match p.elements[pos]? with
  | none => ⟨p, false, false⟩
  | some element =>
    let uniqueId := "pano-viewer-" ++ toString index
    let p1 := { p with elements := p.elements.set pos { element with id := uniqueId } }
    match element.dataImage with
    | none => ⟨p1, false, false⟩
    | some outputImagePath =>
      if outputImagePath = "" then ⟨p1, false, false⟩
      else
        let r := initImagePanoramaViewer M p1 uniqueId outputImagePath
        match element.row with
        | none => ⟨r.state, true, false⟩
        | some row =>
          if row.hasInputImg then
            ⟨{ r.state with
                srcAssignments :=
                  r.state.srcAssignments ++
                    [(pos, replaceFirst outputImagePath "_ours.png" "_input.png")] },
              false, false⟩
          else ⟨r.state, false, false⟩

/-- The platform's `forEach`: call the body on each entry in order; a throw
ends the loop and propagates. -/
def forEachViewer {α : Type} [LinearOrderedField α] (M : MathLib α) :
    List (Nat × Nat) → Page α → Outcome (Page α)
  | [], p => ⟨p, false, false⟩
  | (index, pos) :: rest, p =>
    let r := forEachBody M p index pos
    if r.threw then r else forEachViewer M rest r.state

/-- The `DOMContentLoaded` listener of the image viewer script. -/
def onDOMContentLoaded {α : Type} [LinearOrderedField α] (M : MathLib α) (p : Page α) :
    Outcome (Page α) :=
  forEachViewer M (querySelectorAllPanoImage p.elements).enum p

/-- The positions of the containers that have a viewer. -/
def initialised {α : Type} (p : Page α) : List Nat :=
  p.viewers.map Instance.container

/-- A page with the given elements on which the script has not run yet. -/
def Page.fresh {α : Type} (els : List Element) : Page α :=
  { elements := els, consoleErrors := [], viewers := [], resizeListeners := 0,
    frameRequests := 0, srcAssignments := [] }

/-- A pano element as written in the markup. -/
def panoElement (dataImage : Option String) (row : Option Row) : Element :=
  { id := "", panoImage := true, dataImage := dataImage, row := row, canvases := 0,
    listeners := [] }

end Image

namespace Video

/-! ### Listener lists reachable through modal calls -/

/-- The document-level drag listeners in the order the first `openModal`
registers them. -/
def documentAfterFirstOpen : List Listener :=
  [⟨"mousemove", .onPointerMove⟩, ⟨"mouseup", .onPointerUp⟩, ⟨"touchmove", .onPointerMove⟩,
    ⟨"touchend", .onPointerUp⟩]

/-- The document-level drag listeners `closeModal` leaves behind. -/
def documentAfterClose : List Listener :=
  [⟨"touchmove", .onPointerMove⟩, ⟨"touchend", .onPointerUp⟩]

/-- The document-level drag listeners after a reopening. -/
def documentAfterReopen : List Listener :=
  [⟨"touchmove", .onPointerMove⟩, ⟨"touchend", .onPointerUp⟩, ⟨"mousemove", .onPointerMove⟩,
    ⟨"mouseup", .onPointerUp⟩]

/-- The container's drag listeners once the modal has been opened. -/
def containerAfterOpen : List Listener :=
  [⟨"mousedown", .onPointerStart⟩, ⟨"touchstart", .onPointerStart⟩]

/-- The listener lists that sequences of modal calls can produce. -/
def Registry {α : Type} (s : State α) : Prop :=
  (s.documentListeners = [] ∧ s.containerListeners = []) ∨
  (s.documentListeners = documentAfterFirstOpen ∧ s.containerListeners = containerAfterOpen) ∨
  (s.documentListeners = documentAfterClose ∧ s.containerListeners = containerAfterOpen) ∨
  (s.documentListeners = documentAfterReopen ∧ s.containerListeners = containerAfterOpen)

/-- The listener lists while the modal is open. -/
def RegistryOpen {α : Type} (s : State α) : Prop :=
  (s.documentListeners = documentAfterFirstOpen ∨ s.documentListeners = documentAfterReopen) ∧
  s.containerListeners = containerAfterOpen

end Video

/-! ## The spec's orientation controller -/

/-- The operation `resolveLookAt(radius)` as the specification words it: clamp
the latitude to `[-85, 85]`, take `phi = 90° - latitude` and
`theta = longitude` in radians, and return
`(radius·sin(phi)·cos(theta), radius·cos(phi), radius·sin(phi)·sin(theta))`. -/
def resolveLookAt {α : Type} [LinearOrderedField α] (M : MathLib α) (radius lon lat : α) :
    Vector3 α :=
  let c := max (-85) (min 85 lat)
  let phi := M.degToRad (90 - c)
  let theta := M.degToRad lon
  ⟨radius * M.sin phi * M.cos theta, radius * M.cos phi, radius * M.sin phi * M.sin theta⟩

/-! ## Sessions used as concrete inputs -/

/-- The video viewer after this session: `openModal("v.mp4")` on the freshly
loaded page, mouse-down at `(100, 100)` inside the container, mouse-move to
`(50, 100)`, then `closeModal()` before the next animation frame. -/
def closedAfterDrag {α : Type} [LinearOrderedField α] (M : MathLib α) : Video.State α :=
  Video.closeModal
    (Video.dispatch
      (Video.dispatch (Video.openModal M Video.State.initial "v.mp4").state .container
        "mousedown" (mouseEvent 100 100)).state
      .document "mousemove" (mouseEvent 50 100)).state

/-- The video viewer after this session: `openModal("v.mp4")` on the freshly
loaded page, mouse-down at `(100, 100)` inside the container, `closeModal()`
while the button is still held, then `openModal("v.mp4")` again. -/
def reopenedDuringDrag {α : Type} [LinearOrderedField α] (M : MathLib α) : Video.State α :=
  (Video.openModal M
    (Video.closeModal
      (Video.dispatch (Video.openModal M Video.State.initial "v.mp4").state .container
        "mousedown" (mouseEvent 100 100)).state)
    "v.mp4").state

/-- The video viewer after this session: `openModal("v.mp4")` on the freshly
loaded page, mouse-down at `(100, 100)` inside the container, mouse-move to
`(100, 1100)`: the stored latitude is `100`, beyond the clamp. -/
def draggedPastPole {α : Type} [LinearOrderedField α] (M : MathLib α) : Video.State α :=
  Video.run M Video.State.initial
    [.openModal "v.mp4", .event .container "mousedown" (mouseEvent 100 100),
      .event .document "mousemove" (mouseEvent 100 1100)]

/-- The video viewer after `openModal`, `openModal` again, and a mouse-down at
`(100, 100)` inside the container. -/
def openedTwiceThenPressed {α : Type} [LinearOrderedField α] (M : MathLib α) :
    Video.State α :=
  Video.run M Video.State.initial
    [.openModal "v.mp4", .openModal "v.mp4",
      .event .container "mousedown" (mouseEvent 100 100)]

/-- The video viewer after `openModal`, `closeModal`, `openModal`, and a
mouse-down at `(100, 100)` inside the container. -/
def reopenedThenPressed {α : Type} [LinearOrderedField α] (M : MathLib α) :
    Video.State α :=
  Video.run M Video.State.initial
    [.openModal "v.mp4", .closeModal, .openModal "v.mp4",
      .event .container "mousedown" (mouseEvent 100 100)]

/-- A page with two pano elements: the first has a `data-image` but no
enclosing `.comparison-row`; the second is complete. -/
def rowlessThenValid : List Image.Element :=
  [Image.panoElement (some "a_ours.png") none,
    Image.panoElement (some "b_ours.png") (some ⟨true⟩)]

/-- A page with three pano elements: one without `data-image`, one whose row
has no `.input-perspective-img`, and a complete one. -/
def degradedThenValid : List Image.Element :=
  [Image.panoElement none none,
    Image.panoElement (some "c_ours.png") (some ⟨false⟩),
    Image.panoElement (some "b_ours.png") (some ⟨true⟩)]

/-! ## Helper lemmas -/

lemma clamp_clamp {α : Type} [LinearOrderedField α] (x : α) :
    max (-85) (min 85 (max (-85) (min 85 x))) = max (-85 : α) (min 85 x) := by
  have h1 : max (-85 : α) (min 85 x) ≤ 85 :=
    max_le (by norm_num) (min_le_left _ _)
  rw [min_eq_right h1]
  exact max_eq_right (le_max_left _ _)

lemma resolveClientX_mouseEvent {α : Type} [LinearOrderedField α] (x y : α) (hx : x ≠ 0) :
    resolveClientX (mouseEvent x y) = some x := by
  simp [resolveClientX, mouseEvent, hx]

lemma resolveClientY_mouseEvent {α : Type} [LinearOrderedField α] (x y : α) (hy : y ≠ 0) :
    resolveClientY (mouseEvent x y) = some y := by
  simp [resolveClientY, mouseEvent, hy]

lemma sphere_identity (r p t : ℝ) :
    (r * Real.sin p * Real.cos t) ^ 2 + (r * Real.cos p) ^ 2 + (r * Real.sin p * Real.sin t) ^ 2
      = r ^ 2 := by
  have hp := Real.sin_sq_add_cos_sq p
  have ht := Real.sin_sq_add_cos_sq t
  linear_combination (r ^ 2 * Real.sin p ^ 2) * ht + r ^ 2 * hp

lemma flex_ne_none : ("flex" : String) ≠ "none" := by decide

namespace Video

lemma animate_hidden {α : Type} [LinearOrderedField α] (M : MathLib α) (s : State α)
    (h : s.modalDisplay = "none") : animate M s = ⟨s, false, false⟩ := by
  simp [animate, h]

lemma animate_shown {α : Type} [LinearOrderedField α] (M : MathLib α) (s : State α)
    (h : s.modalDisplay ≠ "none") (hc : s.camera.isSome = true) :
    animate M s =
      ⟨{ s with
          lat := max (-85) (min 85 s.lat)
          phi := M.degToRad (90 - max (-85) (min 85 s.lat))
          theta := M.degToRad s.lon
          camera := some (resolveLookAt M 500 s.lon s.lat) },
        true, !s.renderer⟩ := by
  obtain ⟨t, ht⟩ := Option.isSome_iff_exists.mp hc
  simp [animate, h, ht, resolveLookAt]

lemma animate_no_camera {α : Type} [LinearOrderedField α] (M : MathLib α) (s : State α)
    (h : s.modalDisplay ≠ "none") (hc : s.camera = none) :
    animate M s =
      ⟨{ s with
          lat := max (-85) (min 85 s.lat)
          phi := M.degToRad (90 - max (-85) (min 85 s.lat))
          theta := M.degToRad s.lon },
        true, true⟩ := by
  simp [animate, h, hc]

lemma openModal_eq {α : Type} [LinearOrderedField α] (M : MathLib α) (s : State α)
    (url : String) :
    (openModal M s url).state.camera = some (resolveLookAt M 500 180 0) ∧
    (openModal M s url).state.renderer = true ∧
    (openModal M s url).state.modalDisplay = "flex" ∧
    (openModal M s url).threw = false := by
  unfold openModal
  refine ⟨?_, ?_, ?_, ?_⟩ <;> simp [animate, flex_ne_none, resolveLookAt]

lemma animate_frame {α : Type} [LinearOrderedField α] (M : MathLib α) (s : State α) :
    (animate M s).state.documentListeners = s.documentListeners ∧
    (animate M s).state.containerListeners = s.containerListeners ∧
    (animate M s).state.modalDisplay = s.modalDisplay ∧
    (animate M s).state.isUserInteracting = s.isUserInteracting ∧
    (animate M s).state.anchor = s.anchor := by
  by_cases h : s.modalDisplay = "none"
  · rw [animate_hidden M s h]
    exact ⟨rfl, rfl, rfl, rfl, rfl⟩
  · cases hc : s.camera with
    | none =>
      rw [animate_no_camera M s h hc]
      exact ⟨rfl, rfl, rfl, rfl, rfl⟩
    | some t =>
      rw [animate_shown M s h (by simp [hc])]
      exact ⟨rfl, rfl, rfl, rfl, rfl⟩

end Video

/-! ## Claims about the orientation controller -/

/-- C1: `onPointerMove`, in the image and in the video viewer, changes nothing
when no drag session is active; with an active session and a resolved pointer
position `(x, y)` it sets `lon = (anchorX - x) * 0.1 + anchorLon` and
`lat = (y - anchorY) * 0.1 + anchorLat`, the anchor being what `onPointerStart`
stored (pointer position and orientation at that moment) and what
`onPointerMove`, `onPointerUp` and the per-frame update leave as it is.  From
orientation `(180, 0)`, a drag begun at `(100, 100)` and moved to `(50, 100)`
gives `lon = 185`, `lat = 0`. -/
theorem C1_onPointerMove_drag_formula {α : Type} [LinearOrderedField α] :
    (∀ (v : Image.Viewer α) (e : PointerEvent α), v.isUserInteracting = false →
        Image.onPointerMove v e = ⟨v, false, false⟩) ∧
    (∀ (v : Image.Viewer α) (e : PointerEvent α) (x y : α), v.isUserInteracting = true →
        resolveClientX e = some x → resolveClientY e = some y →
        Image.onPointerMove v e =
          ⟨{ v with
              lon := (v.onPointerDownPointerX - x) * 0.1 + v.onPointerDownLon
              lat := (y - v.onPointerDownPointerY) * 0.1 + v.onPointerDownLat },
            false, false⟩) ∧
    (∀ (v : Image.Viewer α) (e : PointerEvent α) (x0 y0 : α),
        resolveClientX e = some x0 → resolveClientY e = some y0 →
        (Image.onPointerStart v e).state =
          { v with
            isUserInteracting := true
            onPointerDownPointerX := x0
            onPointerDownPointerY := y0
            onPointerDownLon := v.lon
            onPointerDownLat := v.lat }) ∧
    (∀ (v : Image.Viewer α), v.lon = 180 → v.lat = 0 →
        (Image.onPointerMove (Image.onPointerStart v (mouseEvent 100 100)).state
            (mouseEvent 50 100)).state.lon = 185 ∧
        (Image.onPointerMove (Image.onPointerStart v (mouseEvent 100 100)).state
            (mouseEvent 50 100)).state.lat = 0) ∧
    (∀ (s : Video.State α) (e : PointerEvent α), s.isUserInteracting = false →
        Video.onPointerMove s e = ⟨s, false, false⟩) ∧
    (∀ (s : Video.State α) (e : PointerEvent α) (x y : α), s.isUserInteracting = true →
        resolveClientX e = some x → resolveClientY e = some y →
        Video.onPointerMove s e =
          ⟨{ s with
              lon := (s.onPointerDownPointerX - x) * 0.1 + s.onPointerDownLon
              lat := (y - s.onPointerDownPointerY) * 0.1 + s.onPointerDownLat },
            false, false⟩) ∧
    (∀ (s : Video.State α) (e : PointerEvent α) (x0 y0 : α),
        resolveClientX e = some x0 → resolveClientY e = some y0 →
        (Video.onPointerStart s e).state =
          { s with
            isUserInteracting := true
            onPointerDownPointerX := x0
            onPointerDownPointerY := y0
            onPointerDownLon := s.lon
            onPointerDownLat := s.lat }) ∧
    (∀ (s : Video.State α), s.lon = 180 → s.lat = 0 →
        (Video.onPointerMove (Video.onPointerStart s (mouseEvent 100 100)).state
            (mouseEvent 50 100)).state.lon = 185 ∧
        (Video.onPointerMove (Video.onPointerStart s (mouseEvent 100 100)).state
            (mouseEvent 50 100)).state.lat = 0) ∧
    (∀ (M : MathLib α) (v : Image.Viewer α) (e : PointerEvent α),
        (Image.onPointerMove v e).state.anchor = v.anchor ∧
        (Image.onPointerUp v).anchor = v.anchor ∧
        (Image.update M v).anchor = v.anchor) ∧
    (∀ (M : MathLib α) (s : Video.State α) (e : PointerEvent α),
        (Video.onPointerMove s e).state.anchor = s.anchor ∧
        (Video.onPointerUp s).anchor = s.anchor ∧
        (Video.animate M s).state.anchor = s.anchor) := by
  have hX1 : resolveClientX (mouseEvent (100 : α) 100) = some 100 :=
    resolveClientX_mouseEvent _ _ (by norm_num)
  have hY1 : resolveClientY (mouseEvent (100 : α) 100) = some 100 :=
    resolveClientY_mouseEvent _ _ (by norm_num)
  have hX2 : resolveClientX (mouseEvent (50 : α) 100) = some 50 :=
    resolveClientX_mouseEvent _ _ (by norm_num)
  have hY2 : resolveClientY (mouseEvent (50 : α) 100) = some 100 :=
    resolveClientY_mouseEvent _ _ (by norm_num)
  refine ⟨?_, ?_, ?_, ?_, ?_, ?_, ?_, ?_, ?_, ?_⟩
  · intro v e h
    simp [Image.onPointerMove, h]
  · intro v e x y h hx hy
    simp [Image.onPointerMove, h, hx, hy]
  · intro v e x0 y0 hx hy
    simp [Image.onPointerStart, hx, hy]
  · intro v hlon hlat
    simp only [Image.onPointerStart, Image.onPointerMove, hX1, hY1, hX2, hY2, hlon, hlat]
    constructor <;> norm_num
  · intro s e h
    simp [Video.onPointerMove, h]
  · intro s e x y h hx hy
    simp [Video.onPointerMove, h, hx, hy]
  · intro s e x0 y0 hx hy
    simp [Video.onPointerStart, hx, hy]
  · intro s hlon hlat
    simp only [Video.onPointerStart, Video.onPointerMove, hX1, hY1, hX2, hY2, hlon, hlat]
    constructor <;> norm_num
  · intro M v e
    refine ⟨?_, rfl, rfl⟩
    unfold Image.onPointerMove
    split
    · rfl
    · split
      · rfl
      · split <;> rfl
  · intro M s e
    refine ⟨?_, rfl, ?_⟩
    · unfold Video.onPointerMove
      split
      · rfl
      · split
        · rfl
        · split <;> rfl
    · exact (Video.animate_frame M s).2.2.2.2

/-- Witness for C1: on a freshly constructed image viewer (orientation
`(180, 0)`, no session) a move changes nothing, and the drag from
`(100, 100)` to `(50, 100)` gives longitude 185 and latitude 0. -/
theorem C1_onPointerMove_drag_formula_witness :
    (Image.Viewer.initial (α := ℚ)).isUserInteracting = false ∧
    (Image.Viewer.initial (α := ℚ)).lon = 180 ∧
    (Image.Viewer.initial (α := ℚ)).lat = 0 ∧
    Image.onPointerMove (Image.Viewer.initial (α := ℚ)) (mouseEvent 50 100) =
      ⟨Image.Viewer.initial, false, false⟩ ∧
    (Image.onPointerMove
        (Image.onPointerStart (Image.Viewer.initial (α := ℚ)) (mouseEvent 100 100)).state
        (mouseEvent 50 100)).state.lon = 185 ∧
    (Image.onPointerMove
        (Image.onPointerStart (Image.Viewer.initial (α := ℚ)) (mouseEvent 100 100)).state
        (mouseEvent 50 100)).state.lat = 0 :=
  ⟨rfl, rfl, rfl,
    C1_onPointerMove_drag_formula.1 Image.Viewer.initial (mouseEvent 50 100) rfl,
    (C1_onPointerMove_drag_formula.2.2.2.1 Image.Viewer.initial rfl rfl).1,
    (C1_onPointerMove_drag_formula.2.2.2.1 Image.Viewer.initial rfl rfl).2⟩

lemma closedAfterDrag_real :
    (closedAfterDrag realMath).lon = 185 ∧ (closedAfterDrag realMath).lat = 0 ∧
    (closedAfterDrag realMath).modalDisplay = "none" ∧
    (closedAfterDrag realMath).camera.map Vector3.z = some 0 := by
  have hpi : (180 : ℝ) * (Real.pi / 180) = Real.pi := by ring
  simp [closedAfterDrag, Video.closeModal, Video.dispatch, Video.dispatchCallbacks,
    Video.openModal, Video.animate,
    Video.State.initial, Video.callbacksFor, Video.addEventListener, Video.invokeAll,
    Video.invoke, Video.onPointerStart, Video.onPointerMove, mouseEvent, resolveClientX,
    resolveClientY, realMath, hpi]
  norm_num

lemma draggedPastPole_eval {α : Type} [LinearOrderedField α] (M : MathLib α) :
    (draggedPastPole M).modalDisplay = "flex" ∧ (draggedPastPole M).camera.isSome = true ∧
    (draggedPastPole M).renderer = true ∧ (draggedPastPole M).lon = 180 ∧
    (draggedPastPole M).lat = 100 := by
  simp [draggedPastPole, Video.run, Video.Action.apply, Video.dispatch,
    Video.dispatchCallbacks, Video.openModal, Video.animate,
    Video.State.initial, Video.callbacksFor, Video.addEventListener, Video.invokeAll,
    Video.invoke, Video.onPointerStart, Video.onPointerMove, mouseEvent, resolveClientX,
    resolveClientY]
  norm_num

/-- C2, as stated, fails for the video viewer's `animate()`: in the state
reached by open, drag from `(100, 100)` to `(50, 100)`, close, the orientation
is `(185, 0)` but `animate()` returns at its modal check, so the camera target
is not the point computed from the stored orientation. -/
theorem C2_counterexample_animate_hidden_modal :
    (Video.animate realMath (closedAfterDrag realMath)).state.camera ≠
      some (resolveLookAt realMath 500 (closedAfterDrag realMath).lon
        (closedAfterDrag realMath).lat) := by
  obtain ⟨hlon, hlat, hdisp, hz⟩ := closedAfterDrag_real
  intro h
  rw [Video.animate_hidden realMath _ hdisp] at h
  have hz2 := congrArg (Option.map Vector3.z) h
  have hs : realMath.sin = Real.sin := rfl
  have hd : ∀ d : ℝ, realMath.degToRad d = d * (Real.pi / 180) := fun _ => rfl
  simp only [hz, Option.map_some', resolveLookAt, hlon, hlat, hs, hd, Option.some.injEq] at hz2
  have h1 : (90 - max (-85 : ℝ) (min 85 0)) * (Real.pi / 180) = Real.pi / 2 := by
    rw [min_eq_right (by norm_num), max_eq_right (by norm_num)]
    ring
  have h2 : (185 : ℝ) * (Real.pi / 180) = Real.pi / 36 + Real.pi := by ring
  rw [h1, h2, Real.sin_pi_div_two, Real.sin_add_pi] at hz2
  have hpos : 0 < Real.sin (Real.pi / 36) :=
    Real.sin_pos_of_pos_of_lt_pi (by positivity) (by linarith [Real.pi_pos])
  linarith

/-- C2 (amended): the image viewer's `update()` always computes the camera
target from the latitude clamped to `[-85, 85]`, as `resolveLookAt` with radius
500 does.  The video viewer's `animate()`, run with the camera and renderer
that `openModal` creates, does the same whenever the modal's display is not
`'none'` (it requests the next frame and does not throw); when the display is
`'none'` it returns at once and changes nothing.  `openModal` itself leaves
camera and renderer assigned, the modal shown, and the target computed from
`(180, 0)`. -/
theorem C2_target_from_clamped_latitude {α : Type} [LinearOrderedField α] (M : MathLib α) :
    (∀ v : Image.Viewer α,
        (Image.update M v).cameraTarget = resolveLookAt M 500 v.lon v.lat ∧
        (Image.update M v).lat = max (-85) (min 85 v.lat) ∧
        (Image.update M v).lon = v.lon) ∧
    (∀ s : Video.State α, s.modalDisplay ≠ "none" → s.camera.isSome = true →
        s.renderer = true →
        (Video.animate M s).state.camera = some (resolveLookAt M 500 s.lon s.lat) ∧
        (Video.animate M s).state.lat = max (-85) (min 85 s.lat) ∧
        (Video.animate M s).state.lon = s.lon ∧
        (Video.animate M s).frameRequested = true ∧
        (Video.animate M s).threw = false) ∧
    (∀ s : Video.State α, s.modalDisplay = "none" → Video.animate M s = ⟨s, false, false⟩) ∧
    (∀ (s : Video.State α) (url : String),
        (Video.openModal M s url).state.camera = some (resolveLookAt M 500 180 0) ∧
        (Video.openModal M s url).state.renderer = true ∧
        (Video.openModal M s url).state.modalDisplay = "flex" ∧
        (Video.openModal M s url).threw = false) := by
  refine ⟨?_, ?_, Video.animate_hidden M, Video.openModal_eq M⟩
  · intro v
    simp [Image.update, resolveLookAt]
  · intro s h hc hr
    rw [Video.animate_shown M s h hc]
    simp [hr]

/-- Witness for C2 (amended), over the reals: after open and a drag from
`(100, 100)` to `(100, 1100)` the modal is shown, camera and renderer are
assigned and the stored latitude is `100`; the next frame clamps it to `85`
and computes the target from the clamped value. -/
theorem C2_target_from_clamped_latitude_witness :
    (draggedPastPole realMath).modalDisplay ≠ "none" ∧
    (draggedPastPole realMath).camera.isSome = true ∧
    (draggedPastPole realMath).renderer = true ∧
    (draggedPastPole realMath).lat = 100 ∧
    (Video.animate realMath (draggedPastPole realMath)).state.camera =
      some (resolveLookAt realMath 500 (draggedPastPole realMath).lon
        (draggedPastPole realMath).lat) ∧
    (Video.animate realMath (draggedPastPole realMath)).state.lat = 85 :=
  have e := draggedPastPole_eval realMath
  have hd : (draggedPastPole realMath).modalDisplay ≠ "none" := by
    rw [e.1]
    decide
  have w := (C2_target_from_clamped_latitude realMath).2.1 (draggedPastPole realMath) hd
    e.2.1 e.2.2.1
  ⟨hd, e.2.1, e.2.2.1, e.2.2.2.2, w.1, by
    rw [w.2.1, e.2.2.2.2]
    norm_num⟩

/-- C3: over the reals, the camera target computed by the per-frame update
lies on the sphere of radius 500: `x² + y² + z² = 500²`, so its magnitude is
500.  This holds for the image viewer's `update()`, for the video viewer's
`animate()` whenever it computes a target (modal not hidden, camera
assigned), and for the target `openModal` leaves. -/
theorem C3_target_on_sphere :
    (∀ v : Image.Viewer ℝ,
        (Image.update realMath v).cameraTarget.x ^ 2 + (Image.update realMath v).cameraTarget.y ^ 2
          + (Image.update realMath v).cameraTarget.z ^ 2 = 500 ^ 2 ∧
        Real.sqrt ((Image.update realMath v).cameraTarget.x ^ 2
          + (Image.update realMath v).cameraTarget.y ^ 2
          + (Image.update realMath v).cameraTarget.z ^ 2) = 500) ∧
    (∀ s : Video.State ℝ, s.modalDisplay ≠ "none" → s.camera.isSome = true →
        ∃ t : Vector3 ℝ, (Video.animate realMath s).state.camera = some t ∧
          t = resolveLookAt realMath 500 s.lon s.lat ∧
          t.x ^ 2 + t.y ^ 2 + t.z ^ 2 = 500 ^ 2 ∧
          Real.sqrt (t.x ^ 2 + t.y ^ 2 + t.z ^ 2) = 500) ∧
    (∀ (s : Video.State ℝ) (url : String),
        ∃ t : Vector3 ℝ, (Video.openModal realMath s url).state.camera = some t ∧
          t.x ^ 2 + t.y ^ 2 + t.z ^ 2 = 500 ^ 2 ∧
          Real.sqrt (t.x ^ 2 + t.y ^ 2 + t.z ^ 2) = 500) := by
  have hsqrt : Real.sqrt ((500 : ℝ) ^ 2) = 500 := Real.sqrt_sq (by norm_num)
  have hlook : ∀ lon lat : ℝ,
      (resolveLookAt realMath 500 lon lat).x ^ 2 + (resolveLookAt realMath 500 lon lat).y ^ 2
        + (resolveLookAt realMath 500 lon lat).z ^ 2 = 500 ^ 2 := by
    intro lon lat
    exact sphere_identity 500 (realMath.degToRad (90 - max (-85) (min 85 lat)))
      (realMath.degToRad lon)
  refine ⟨?_, ?_, ?_⟩
  · intro v
    have h := hlook v.lon v.lat
    simp only [Image.update, resolveLookAt] at h ⊢
    exact ⟨h, by rw [h, hsqrt]⟩
  · intro s hs hc
    refine ⟨resolveLookAt realMath 500 s.lon s.lat, ?_, rfl, hlook _ _, ?_⟩
    · rw [Video.animate_shown realMath s hs hc]
    · rw [hlook, hsqrt]
  · intro s url
    refine ⟨resolveLookAt realMath 500 180 0, (Video.openModal_eq realMath s url).1,
      hlook _ _, ?_⟩
    rw [hlook, hsqrt]

/-- Witness for C3: after open and a drag from `(100, 100)` to `(100, 1100)`
(stored latitude `100`), the next frame computes a target on the sphere. -/
theorem C3_target_on_sphere_witness :
    (draggedPastPole realMath).modalDisplay ≠ "none" ∧
    (draggedPastPole realMath).camera.isSome = true ∧
    (draggedPastPole realMath).lat = 100 ∧
    ∃ t : Vector3 ℝ,
      (Video.animate realMath (draggedPastPole realMath)).state.camera = some t ∧
      t = resolveLookAt realMath 500 (draggedPastPole realMath).lon
        (draggedPastPole realMath).lat ∧
      t.x ^ 2 + t.y ^ 2 + t.z ^ 2 = 500 ^ 2 ∧
      Real.sqrt (t.x ^ 2 + t.y ^ 2 + t.z ^ 2) = 500 :=
  have e := draggedPastPole_eval realMath
  have hd : (draggedPastPole realMath).modalDisplay ≠ "none" := by
    rw [e.1]
    decide
  ⟨hd, e.2.1, e.2.2.2.2, C3_target_on_sphere.2.1 (draggedPastPole realMath) hd e.2.1⟩

/-- C9: the per-frame update is idempotent for every orientation, latitudes
beyond ±85 included: a second run of the image viewer's `update()` or of the
video viewer's `animate()`, with nothing in between, leaves the state the
first run produced, camera target included, and returns the same result. -/
theorem C9_update_idempotent {α : Type} [LinearOrderedField α] (M : MathLib α) :
    (∀ v : Image.Viewer α,
        Image.update M (Image.update M v) = Image.update M v ∧
        (Image.update M (Image.update M v)).cameraTarget = (Image.update M v).cameraTarget) ∧
    (∀ s : Video.State α,
        Video.animate M (Video.animate M s).state = Video.animate M s ∧
        (Video.animate M (Video.animate M s).state).state.camera =
          (Video.animate M s).state.camera) := by
  have hi : ∀ v : Image.Viewer α, Image.update M (Image.update M v) = Image.update M v := by
    intro v
    simp [Image.update, clamp_clamp]
  have hv : ∀ s : Video.State α, Video.animate M (Video.animate M s).state = Video.animate M s := by
    intro s
    by_cases h : s.modalDisplay = "none"
    · simp [Video.animate, h]
    · cases hc : s.camera with
      | none => simp [Video.animate, h, hc, clamp_clamp]
      | some t => simp [Video.animate, h, hc, clamp_clamp]
  exact ⟨fun v => ⟨hi v, by rw [hi v]⟩, fun s => ⟨hv s, by rw [hv s]⟩⟩

/-- C4 (evaluation at the failing inputs): a mouse event whose `clientX` or
`clientY` is `0` makes `onPointerStart` throw after it has set
`isUserInteracting`, leaving the anchor as it was, and makes `onPointerMove`
with an active session throw without updating the orientation, in both
viewers. -/
theorem C4_mouse_event_at_zero_throws {α : Type} [LinearOrderedField α] :
    (∀ (v : Image.Viewer α) (x y : α),
        Image.onPointerStart v (mouseEvent 0 y) =
          ⟨{ v with isUserInteracting := true }, true, false⟩ ∧
        Image.onPointerStart v (mouseEvent 100 0) =
          ⟨{ v with isUserInteracting := true }, true, false⟩ ∧
        Image.onPointerMove { v with isUserInteracting := true } (mouseEvent 0 y) =
          ⟨{ v with isUserInteracting := true }, true, false⟩ ∧
        Image.onPointerMove { v with isUserInteracting := true } (mouseEvent x 0) =
          ⟨{ v with isUserInteracting := true }, true, false⟩) ∧
    (∀ (s : Video.State α) (x y : α),
        Video.onPointerStart s (mouseEvent 0 y) =
          ⟨{ s with isUserInteracting := true }, true, false⟩ ∧
        Video.onPointerStart s (mouseEvent 100 0) =
          ⟨{ s with isUserInteracting := true }, true, false⟩ ∧
        Video.onPointerMove { s with isUserInteracting := true } (mouseEvent 0 y) =
          ⟨{ s with isUserInteracting := true }, true, false⟩ ∧
        Video.onPointerMove { s with isUserInteracting := true } (mouseEvent x 0) =
          ⟨{ s with isUserInteracting := true }, true, false⟩) := by
  constructor
  · intro v x y
    refine ⟨?_, ?_, ?_, ?_⟩
    · simp [Image.onPointerStart, mouseEvent, resolveClientX, firstTouch]
    · simp [Image.onPointerStart, mouseEvent, resolveClientX, resolveClientY, firstTouch]
    · simp [Image.onPointerMove, mouseEvent, resolveClientX, firstTouch]
    · by_cases hx : x = 0 <;>
        simp [Image.onPointerMove, mouseEvent, resolveClientX, resolveClientY, firstTouch, hx]
  · intro s x y
    refine ⟨?_, ?_, ?_, ?_⟩
    · simp [Video.onPointerStart, mouseEvent, resolveClientX, firstTouch]
    · simp [Video.onPointerStart, mouseEvent, resolveClientX, resolveClientY, firstTouch]
    · simp [Video.onPointerMove, mouseEvent, resolveClientX, firstTouch]
    · by_cases hx : x = 0 <;>
        simp [Video.onPointerMove, mouseEvent, resolveClientX, resolveClientY, firstTouch, hx]

/-! ## Listener registry of the video modal -/

namespace Video

lemma animate_documentListeners {α : Type} [LinearOrderedField α] (M : MathLib α)
    (s : State α) : (animate M s).state.documentListeners = s.documentListeners :=
  (animate_frame M s).1

lemma animate_containerListeners {α : Type} [LinearOrderedField α] (M : MathLib α)
    (s : State α) : (animate M s).state.containerListeners = s.containerListeners :=
  (animate_frame M s).2.1

lemma mem_addEventListener (ls : List Listener) (t : String) (c : Handler) (l : Listener) :
    l ∈ addEventListener ls t c ↔ l ∈ ls ∨ l = ⟨t, c⟩ := by
  unfold addEventListener
  split
  · constructor
    · intro h
      exact Or.inl h
    · rintro (h | h)
      · exact h
      · rw [h]
        assumption
  · simp

lemma count_callbacksFor (ls : List Listener) (t : String) (c : Handler) :
    (callbacksFor ls t).count c = ls.count ⟨t, c⟩ := by
  induction ls with
  | nil => rfl
  | cons l ls ih =>
    obtain ⟨lt, lc⟩ := l
    unfold callbacksFor at ih ⊢
    by_cases ht : lt = t
    · by_cases hc : lc = c
      · subst ht hc
        simp [List.filter_cons, ih]
      · have hne : (Listener.mk lt lc == Listener.mk t c) = false := by
          simp [hc]
        simp [List.filter_cons, ht, List.count_cons, hc, hne, ih]
    · have hne : (Listener.mk lt lc == Listener.mk t c) = false := by
        simp [ht]
      simp [List.filter_cons, ht, List.count_cons, hne, ih]

lemma registry_openModal {α : Type} [LinearOrderedField α] (M : MathLib α) (s : State α)
    (url : String) (h : Registry s) : RegistryOpen (openModal M s url).state := by
  unfold RegistryOpen
  unfold openModal
  rw [animate_documentListeners, animate_containerListeners]
  rcases h with ⟨hd, hc⟩ | ⟨hd, hc⟩ | ⟨hd, hc⟩ | ⟨hd, hc⟩ <;>
    simp only [hd, hc] <;> decide

lemma registry_closeModal {α : Type} (s : State α) (h : Registry s) :
    Registry (closeModal s) := by
  unfold Registry closeModal
  rcases h with ⟨hd, hc⟩ | ⟨hd, hc⟩ | ⟨hd, hc⟩ | ⟨hd, hc⟩ <;>
    simp only [hd, hc] <;> decide

lemma RegistryOpen.registry {α : Type} {s : State α} (h : RegistryOpen s) : Registry s := by
  rcases h with ⟨hd | hd, hc⟩
  · exact Or.inr (Or.inl ⟨hd, hc⟩)
  · exact Or.inr (Or.inr (Or.inr ⟨hd, hc⟩))

lemma invoke_shell {α : Type} [LinearOrderedField α] (h : Handler) (s : State α)
    (e : PointerEvent α) :
    (invoke h s e).state.documentListeners = s.documentListeners ∧
    (invoke h s e).state.containerListeners = s.containerListeners ∧
    (invoke h s e).state.modalDisplay = s.modalDisplay := by
  cases h with
  | onPointerStart =>
    rcases hx : resolveClientX e with _ | x <;> rcases hy : resolveClientY e with _ | y <;>
      simp [invoke, onPointerStart, hx, hy]
  | onPointerMove =>
    rcases hx : resolveClientX e with _ | x <;> rcases hy : resolveClientY e with _ | y <;>
      cases hi : s.isUserInteracting <;> simp [invoke, onPointerMove, hx, hy, hi]
  | onPointerUp => exact ⟨rfl, rfl, rfl⟩

lemma invokeAll_shell {α : Type} [LinearOrderedField α] (hs : List Handler) (s : State α)
    (e : PointerEvent α) :
    (invokeAll hs s e).state.documentListeners = s.documentListeners ∧
    (invokeAll hs s e).state.containerListeners = s.containerListeners ∧
    (invokeAll hs s e).state.modalDisplay = s.modalDisplay := by
  unfold invokeAll
  generalize hacc : (⟨s, false, false⟩ : Outcome (State α)) = acc
  have hs0 : acc.state = s := by rw [← hacc]
  rw [← hs0]
  clear hs0 hacc
  induction hs generalizing acc with
  | nil => exact ⟨rfl, rfl, rfl⟩
  | cons h hs ih =>
    rw [List.foldl_cons]
    obtain ⟨h1, h2, h3⟩ := ih ⟨(invoke h acc.state e).state,
      acc.threw || (invoke h acc.state e).threw,
      acc.defaultPrevented || (invoke h acc.state e).defaultPrevented⟩
    obtain ⟨k1, k2, k3⟩ := invoke_shell h acc.state e
    exact ⟨h1.trans k1, h2.trans k2, h3.trans k3⟩

/-- The listener lists are among the reachable ones, and are the open-modal
ones while the modal's display is `'flex'`. -/
lemma registry_transfer {α : Type} {s t : State α}
    (hd : t.documentListeners = s.documentListeners)
    (hc : t.containerListeners = s.containerListeners)
    (hm : t.modalDisplay = s.modalDisplay)
    (h : Registry s ∧ (s.modalDisplay = "flex" → RegistryOpen s)) :
    Registry t ∧ (t.modalDisplay = "flex" → RegistryOpen t) := by
  unfold Registry RegistryOpen at h ⊢
  rw [hd, hc, hm]
  exact h

lemma registry_apply {α : Type} [LinearOrderedField α] (M : MathLib α) (s : State α)
    (a : Action α) (h : Registry s ∧ (s.modalDisplay = "flex" → RegistryOpen s)) :
    Registry (Action.apply M s a) ∧
      ((Action.apply M s a).modalDisplay = "flex" → RegistryOpen (Action.apply M s a)) := by
  cases a with
  | openModal url =>
    have ho := registry_openModal M s url h.1
    exact ⟨ho.registry, fun _ => ho⟩
  | closeModal =>
    refine ⟨registry_closeModal s h.1, fun hflex => ?_⟩
    have hnone : ("none" : String) = "flex" := hflex
    exact absurd hnone (by decide)
  | resetView => exact registry_transfer rfl rfl rfl h
  | event target type e =>
    obtain ⟨k1, k2, k3⟩ := invokeAll_shell (dispatchCallbacks s target type) s e
    exact registry_transfer k1 k2 k3 h
  | frame =>
    obtain ⟨k1, k2, k3, _⟩ := animate_frame M s
    exact registry_transfer k1 k2 k3 h

lemma registry_run {α : Type} [LinearOrderedField α] (M : MathLib α)
    (acts : List (Action α)) (s : State α)
    (h : Registry s ∧ (s.modalDisplay = "flex" → RegistryOpen s)) :
    Registry (run M s acts) ∧
      ((run M s acts).modalDisplay = "flex" → RegistryOpen (run M s acts)) := by
  induction acts generalizing s with
  | nil => exact h
  | cons a as ih =>
    unfold run
    rw [List.foldl_cons]
    exact ih _ (registry_apply M s a h)

lemma registry_initial {α : Type} [LinearOrderedField α] :
    Registry (State.initial (α := α)) ∧
      ((State.initial (α := α)).modalDisplay = "flex" → RegistryOpen (State.initial (α := α))) :=
  ⟨Or.inl ⟨rfl, rfl⟩, fun h => absurd (show ("" : String) = "flex" from h) (by decide)⟩

lemma registry_nodup {α : Type} {s : State α} (h : Registry s) :
    s.documentListeners.Nodup ∧
      ∀ t, (callbacksFor s.containerListeners t).count .onPointerMove = 0 := by
  rcases h with ⟨hd, hc⟩ | ⟨hd, hc⟩ | ⟨hd, hc⟩ | ⟨hd, hc⟩ <;>
    rw [hd, hc] <;> refine ⟨by decide, fun t => ?_⟩ <;>
    rw [count_callbacksFor] <;> simp [containerAfterOpen]

lemma registryOpen_moveCallbacks {α : Type} {s : State α} (h : RegistryOpen s)
    (target : Target) :
    dispatchCallbacks s target "mousemove" = [.onPointerMove] ∧
      dispatchCallbacks s target "touchmove" = [.onPointerMove] := by
  obtain ⟨hd, hc⟩ := h
  unfold dispatchCallbacks
  rw [hc]
  rcases hd with hd | hd <;> rw [hd] <;> cases target <;> decide

lemma invokeAll_single {α : Type} [LinearOrderedField α] (h : Handler) (s : State α)
    (e : PointerEvent α) : invokeAll [h] s e = invoke h s e := by
  simp [invokeAll]

lemma run_append {α : Type} [LinearOrderedField α] (M : MathLib α) (s : State α)
    (cs ds : List (Action α)) : run M s (cs ++ ds) = run M (run M s cs) ds := by
  simp [run, List.foldl_append]

lemma pressed_eval {α : Type} [LinearOrderedField α] (M : MathLib α) :
    ((openedTwiceThenPressed M).modalDisplay = "flex" ∧
      (openedTwiceThenPressed M).isUserInteracting = true ∧
      (openedTwiceThenPressed M).anchor = (100, 100, 180, 0)) ∧
    ((reopenedThenPressed M).modalDisplay = "flex" ∧
      (reopenedThenPressed M).isUserInteracting = true ∧
      (reopenedThenPressed M).anchor = (100, 100, 180, 0)) := by
  simp [openedTwiceThenPressed, reopenedThenPressed, run, Action.apply, dispatch,
    dispatchCallbacks, openModal, closeModal, animate, State.initial, State.anchor,
    callbacksFor, addEventListener, removeEventListener, invokeAll, invoke, onPointerStart,
    mouseEvent, resolveClientX, resolveClientY]

end Video

/-- C5 (evaluation at the failing input): `openModal` followed by `closeModal`
leaves the `touchmove` listener `onPointerMove` and the `touchend` listener
`onPointerUp` registered on `document`; from the freshly loaded page they are
exactly what remains, and a later touch-move still reaches `onPointerMove`. -/
theorem C5_closeModal_leaves_touch_listeners {α : Type} [LinearOrderedField α]
    (M : MathLib α) :
    (∀ (s : Video.State α) (url : String),
        ⟨"touchmove", .onPointerMove⟩ ∈
          (Video.closeModal (Video.openModal M s url).state).documentListeners ∧
        ⟨"touchend", .onPointerUp⟩ ∈
          (Video.closeModal (Video.openModal M s url).state).documentListeners) ∧
    (∀ url : String,
        (Video.closeModal (Video.openModal M Video.State.initial url).state).documentListeners =
          [⟨"touchmove", .onPointerMove⟩, ⟨"touchend", .onPointerUp⟩]) ∧
    (∀ (url : String) (e : PointerEvent α),
        Video.dispatch (Video.closeModal (Video.openModal M Video.State.initial url).state)
            .document "touchmove" e =
          Video.onPointerMove (Video.closeModal (Video.openModal M Video.State.initial url).state)
            e) := by
  have hinit : ∀ url : String,
      (Video.closeModal (Video.openModal M Video.State.initial url).state).documentListeners =
        [⟨"touchmove", .onPointerMove⟩, ⟨"touchend", .onPointerUp⟩] := by
    intro url
    simp only [Video.closeModal, Video.openModal, Video.animate_documentListeners,
      Video.State.initial]
    decide
  refine ⟨?_, hinit, ?_⟩
  · intro s url
    have hne1 : (⟨"touchmove", .onPointerMove⟩ : Video.Listener) ≠ ⟨"mouseup", .onPointerUp⟩ := by
      decide
    have hne2 : (⟨"touchmove", .onPointerMove⟩ : Video.Listener) ≠
        ⟨"mousemove", .onPointerMove⟩ := by decide
    have hne3 : (⟨"touchmove", .onPointerMove⟩ : Video.Listener) ≠
        ⟨"mousedown", .onPointerStart⟩ := by decide
    have hne4 : (⟨"touchend", .onPointerUp⟩ : Video.Listener) ≠ ⟨"mouseup", .onPointerUp⟩ := by
      decide
    have hne5 : (⟨"touchend", .onPointerUp⟩ : Video.Listener) ≠
        ⟨"mousemove", .onPointerMove⟩ := by decide
    have hne6 : (⟨"touchend", .onPointerUp⟩ : Video.Listener) ≠
        ⟨"mousedown", .onPointerStart⟩ := by decide
    simp only [Video.closeModal, Video.openModal, Video.animate_documentListeners,
      Video.removeEventListener]
    constructor
    · rw [List.mem_erase_of_ne hne1, List.mem_erase_of_ne hne2, List.mem_erase_of_ne hne3]
      simp [Video.mem_addEventListener]
    · rw [List.mem_erase_of_ne hne4, List.mem_erase_of_ne hne5, List.mem_erase_of_ne hne6]
      simp [Video.mem_addEventListener]
  · intro url e
    have hcb : Video.dispatchCallbacks
        (Video.closeModal (Video.openModal M Video.State.initial url).state) .document
        "touchmove" = [.onPointerMove] := by
      unfold Video.dispatchCallbacks
      rw [hinit url]
      rfl
    rw [Video.dispatch, hcb, Video.invokeAll_single]
    rfl

/-- C6: on the video page, after any sequence of `openModal` / `closeModal`
calls (interleaved with any pointer events, reset clicks and frames),
`document` holds at most one registration of `onPointerMove` per event type and
a dispatched event calls `onPointerMove` at most once.  While the modal is
open, and in particular right after any `openModal` (a second one in a row or
a reopening included), the callbacks run for a `mousemove` or a `touchmove` are
exactly the one `onPointerMove`; so during an active drag one move event with
pointer position `(x, y)` performs exactly one orientation update, to
`((anchorX - x) * 0.1 + anchorLon, (y - anchorY) * 0.1 + anchorLat)`. -/
theorem C6_no_duplicate_move_listeners {α : Type} [LinearOrderedField α] (M : MathLib α) :
    (∀ (acts : List (Video.Action α)) (type : String),
        (Video.run M Video.State.initial acts).documentListeners.count
          ⟨type, .onPointerMove⟩ ≤ 1) ∧
    (∀ (acts : List (Video.Action α)) (target : Video.Target) (type : String),
        (Video.dispatchCallbacks (Video.run M Video.State.initial acts) target
          type).count .onPointerMove ≤ 1) ∧
    (∀ (acts : List (Video.Action α)) (url : String) (target : Video.Target),
        Video.dispatchCallbacks
            (Video.run M Video.State.initial (acts ++ [Video.Action.openModal url]))
            target "mousemove" = [.onPointerMove] ∧
        Video.dispatchCallbacks
            (Video.run M Video.State.initial (acts ++ [Video.Action.openModal url]))
            target "touchmove" = [.onPointerMove]) ∧
    (∀ (acts : List (Video.Action α)) (target : Video.Target),
        (Video.run M Video.State.initial acts).modalDisplay = "flex" →
        Video.dispatchCallbacks (Video.run M Video.State.initial acts) target "mousemove"
          = [.onPointerMove] ∧
        Video.dispatchCallbacks (Video.run M Video.State.initial acts) target "touchmove"
          = [.onPointerMove]) ∧
    (∀ (acts : List (Video.Action α)) (target : Video.Target) (e : PointerEvent α) (x y : α),
        (Video.run M Video.State.initial acts).modalDisplay = "flex" →
        (Video.run M Video.State.initial acts).isUserInteracting = true →
        resolveClientX e = some x → resolveClientY e = some y →
        Video.dispatch (Video.run M Video.State.initial acts) target "mousemove" e =
          ⟨{ Video.run M Video.State.initial acts with
              lon := ((Video.run M Video.State.initial acts).onPointerDownPointerX - x) * 0.1
                + (Video.run M Video.State.initial acts).onPointerDownLon
              lat := (y - (Video.run M Video.State.initial acts).onPointerDownPointerY) * 0.1
                + (Video.run M Video.State.initial acts).onPointerDownLat },
            false, false⟩ ∧
        Video.dispatch (Video.run M Video.State.initial acts) target "touchmove" e =
          ⟨{ Video.run M Video.State.initial acts with
              lon := ((Video.run M Video.State.initial acts).onPointerDownPointerX - x) * 0.1
                + (Video.run M Video.State.initial acts).onPointerDownLon
              lat := (y - (Video.run M Video.State.initial acts).onPointerDownPointerY) * 0.1
                + (Video.run M Video.State.initial acts).onPointerDownLat },
            false, false⟩) := by
  have hreg := fun acts : List (Video.Action α) =>
    Video.registry_run M acts Video.State.initial Video.registry_initial
  have hflex : ∀ (acts : List (Video.Action α)) (target : Video.Target),
      (Video.run M Video.State.initial acts).modalDisplay = "flex" →
      Video.dispatchCallbacks (Video.run M Video.State.initial acts) target "mousemove"
        = [.onPointerMove] ∧
      Video.dispatchCallbacks (Video.run M Video.State.initial acts) target "touchmove"
        = [.onPointerMove] :=
    fun acts target h => Video.registryOpen_moveCallbacks ((hreg acts).2 h) target
  refine ⟨?_, ?_, ?_, hflex, ?_⟩
  · intro acts type
    exact List.nodup_iff_count_le_one.mp (Video.registry_nodup (hreg acts).1).1 _
  · intro acts target type
    have hdoc := List.nodup_iff_count_le_one.mp (Video.registry_nodup (hreg acts).1).1
      ⟨type, .onPointerMove⟩
    have hcont := (Video.registry_nodup (hreg acts).1).2 type
    unfold Video.dispatchCallbacks
    rw [List.count_append, Video.count_callbacksFor _ type]
    cases target with
    | container =>
      simp only [hcont]
      omega
    | document =>
      simp only [List.count_nil]
      omega
  · intro acts url target
    apply hflex
    rw [Video.run_append]
    exact (Video.openModal_eq M _ url).2.2.1
  · intro acts target e x y hopen hactive hx hy
    obtain ⟨hm, ht⟩ := hflex acts target hopen
    rw [Video.dispatch, Video.dispatch, hm, ht, Video.invokeAll_single]
    simp [Video.invoke, Video.onPointerMove, hactive, hx, hy]

/-- Witness for C6, over the reals: after `openModal`, `openModal` again and a
mouse-down at `(100, 100)` the modal is open and the drag is active; one
`mousemove` to `(50, 100)` runs exactly one `onPointerMove` and sets the
longitude to `(100 - 50) * 0.1 + 180`.  The same after `openModal`,
`closeModal`, `openModal` and the mouse-down. -/
theorem C6_no_duplicate_move_listeners_witness :
    ((openedTwiceThenPressed realMath).modalDisplay = "flex" ∧
      (openedTwiceThenPressed realMath).isUserInteracting = true ∧
      resolveClientX (mouseEvent (50 : ℝ) 100) = some 50 ∧
      resolveClientY (mouseEvent (50 : ℝ) 100) = some 100 ∧
      Video.dispatchCallbacks (openedTwiceThenPressed realMath) .document "mousemove"
        = [.onPointerMove] ∧
      (Video.dispatch (openedTwiceThenPressed realMath) .document "mousemove"
        (mouseEvent 50 100)).state.lon = 185) ∧
    ((reopenedThenPressed realMath).modalDisplay = "flex" ∧
      (reopenedThenPressed realMath).isUserInteracting = true ∧
      Video.dispatchCallbacks (reopenedThenPressed realMath) .document "mousemove"
        = [.onPointerMove] ∧
      (Video.dispatch (reopenedThenPressed realMath) .document "mousemove"
        (mouseEvent 50 100)).state.lon = 185) :=
  have e := Video.pressed_eval realMath
  have hx : resolveClientX (mouseEvent (50 : ℝ) 100) = some 50 :=
    resolveClientX_mouseEvent _ _ (by norm_num)
  have hy : resolveClientY (mouseEvent (50 : ℝ) 100) = some 100 :=
    resolveClientY_mouseEvent _ _ (by norm_num)
  have a1 : (openedTwiceThenPressed realMath).onPointerDownPointerX = 100 ∧
      (openedTwiceThenPressed realMath).onPointerDownLon = 180 :=
    ⟨congrArg Prod.fst e.1.2.2, congrArg (fun p => p.2.2.1) e.1.2.2⟩
  have a2 : (reopenedThenPressed realMath).onPointerDownPointerX = 100 ∧
      (reopenedThenPressed realMath).onPointerDownLon = 180 :=
    ⟨congrArg Prod.fst e.2.2.2, congrArg (fun p => p.2.2.1) e.2.2.2⟩
  ⟨⟨e.1.1, e.1.2.1, hx, hy,
      ((C6_no_duplicate_move_listeners realMath).2.2.2.1 _ .document e.1.1).1, by
      rw [show Video.dispatch (openedTwiceThenPressed realMath) .document "mousemove"
          (mouseEvent 50 100) = _ from
        ((C6_no_duplicate_move_listeners realMath).2.2.2.2 _ .document (mouseEvent 50 100)
          50 100 e.1.1 e.1.2.1 hx hy).1]
      show ((openedTwiceThenPressed realMath).onPointerDownPointerX - 50) * 0.1
        + (openedTwiceThenPressed realMath).onPointerDownLon = 185
      rw [a1.1, a1.2]
      norm_num⟩,
    ⟨e.2.1, e.2.2.1,
      ((C6_no_duplicate_move_listeners realMath).2.2.2.1 _ .document e.2.1).1, by
      rw [show Video.dispatch (reopenedThenPressed realMath) .document "mousemove"
          (mouseEvent 50 100) = _ from
        ((C6_no_duplicate_move_listeners realMath).2.2.2.2 _ .document (mouseEvent 50 100)
          50 100 e.2.1 e.2.2.1 hx hy).1]
      show ((reopenedThenPressed realMath).onPointerDownPointerX - 50) * 0.1
        + (reopenedThenPressed realMath).onPointerDownLon = 185
      rw [a2.1, a2.2]
      norm_num⟩⟩

/-- C10: `openModal` sets `lon = 180`, `lat = 0` and, like `closeModal`, leaves
`isUserInteracting` and the four anchor variables unchanged.  So after
mouse-down at `(100, 100)`, `closeModal`, `openModal` and one mouse-move to
`(50, 100)` with no new pointer-down, the session is still active after the
reopening (orientation `(180, 0)`), and the move sets the longitude to `185`
from the anchor stored before the modal was closed. -/
theorem C10_drag_session_survives_reopen {α : Type} [LinearOrderedField α] (M : MathLib α) :
    (∀ (s : Video.State α) (url : String),
        (Video.openModal M s url).state.lon = 180 ∧
        (Video.openModal M s url).state.lat = 0 ∧
        (Video.openModal M s url).state.isUserInteracting = s.isUserInteracting ∧
        (Video.openModal M s url).state.onPointerDownPointerX = s.onPointerDownPointerX ∧
        (Video.openModal M s url).state.onPointerDownPointerY = s.onPointerDownPointerY ∧
        (Video.openModal M s url).state.onPointerDownLon = s.onPointerDownLon ∧
        (Video.openModal M s url).state.onPointerDownLat = s.onPointerDownLat) ∧
    (∀ s : Video.State α,
        (Video.closeModal s).lon = s.lon ∧
        (Video.closeModal s).lat = s.lat ∧
        (Video.closeModal s).isUserInteracting = s.isUserInteracting ∧
        (Video.closeModal s).onPointerDownPointerX = s.onPointerDownPointerX ∧
        (Video.closeModal s).onPointerDownPointerY = s.onPointerDownPointerY ∧
        (Video.closeModal s).onPointerDownLon = s.onPointerDownLon ∧
        (Video.closeModal s).onPointerDownLat = s.onPointerDownLat) ∧
    ((reopenedDuringDrag M).isUserInteracting = true ∧
      (reopenedDuringDrag M).lon = 180 ∧
      (reopenedDuringDrag M).lat = 0 ∧
      (reopenedDuringDrag M).onPointerDownPointerX = 100 ∧
      (reopenedDuringDrag M).onPointerDownPointerY = 100 ∧
      (reopenedDuringDrag M).onPointerDownLon = 180 ∧
      (reopenedDuringDrag M).onPointerDownLat = 0 ∧
      (Video.dispatch (reopenedDuringDrag M) .document "mousemove"
        (mouseEvent 50 100)).state.lon = 185 ∧
      (Video.dispatch (reopenedDuringDrag M) .document "mousemove"
        (mouseEvent 50 100)).state.lat = 0 ∧
      (Video.dispatch (reopenedDuringDrag M) .document "mousemove"
        (mouseEvent 50 100)).state.lon ≠ 180) := by
  have hclamp : max (-85 : α) (min 85 0) = 0 := by
    rw [min_eq_right (by norm_num), max_eq_right (by norm_num)]
  have hflex : ("flex" : String) ≠ "none" := by decide
  have hopen : ∀ (s : Video.State α) (url : String),
      (Video.openModal M s url).state.lon = 180 ∧
      (Video.openModal M s url).state.lat = 0 ∧
      (Video.openModal M s url).state.isUserInteracting = s.isUserInteracting ∧
      (Video.openModal M s url).state.onPointerDownPointerX = s.onPointerDownPointerX ∧
      (Video.openModal M s url).state.onPointerDownPointerY = s.onPointerDownPointerY ∧
      (Video.openModal M s url).state.onPointerDownLon = s.onPointerDownLon ∧
      (Video.openModal M s url).state.onPointerDownLat = s.onPointerDownLat := by
    intro s url
    simp [Video.openModal, Video.animate, hflex, hclamp]
  refine ⟨hopen, fun s => ⟨rfl, rfl, rfl, rfl, rfl, rfl, rfl⟩, ?_⟩
  simp [reopenedDuringDrag, Video.closeModal, Video.dispatch, Video.dispatchCallbacks,
    Video.openModal, Video.animate, Video.State.initial, Video.callbacksFor,
    Video.addEventListener, Video.removeEventListener, Video.invokeAll, Video.invoke,
    Video.onPointerStart, Video.onPointerMove, mouseEvent, resolveClientX, resolveClientY]
  norm_num

/-! ## Claims about the image viewer's construction and page-load scan -/

/-- C7 (evaluation at the failing input): on a page whose first pano element
has a `data-image` but no enclosing `.comparison-row`, the scan throws after
initialising that element and never reaches the second, complete element: it
gets no id, no canvas, no listener and no viewer.  By contrast a missing
`data-image` or a row without `.input-perspective-img` throws nothing and the
elements after it are initialised. -/
theorem C7_rowless_element_aborts_scan {α : Type} [LinearOrderedField α] (M : MathLib α) :
    ((Image.onDOMContentLoaded M (Image.Page.fresh rowlessThenValid)).threw = true ∧
      Image.initialised (Image.onDOMContentLoaded M (Image.Page.fresh rowlessThenValid)).state
        = [0] ∧
      (Image.onDOMContentLoaded M (Image.Page.fresh rowlessThenValid)).state.elements[1]? =
        some (Image.panoElement (some "b_ours.png") (some ⟨true⟩)) ∧
      (Image.onDOMContentLoaded M (Image.Page.fresh rowlessThenValid)).state.srcAssignments
        = [] ∧
      (Image.onDOMContentLoaded M (Image.Page.fresh rowlessThenValid)).state.consoleErrors
        = []) ∧
    ((Image.onDOMContentLoaded M (Image.Page.fresh degradedThenValid)).threw = false ∧
      Image.initialised (Image.onDOMContentLoaded M (Image.Page.fresh degradedThenValid)).state
        = [1, 2] ∧
      (Image.onDOMContentLoaded M (Image.Page.fresh degradedThenValid)).state.srcAssignments
        = [(2, "b_input.png")]) := by
  refine ⟨⟨?_, ?_, ?_, ?_, ?_⟩, ⟨?_, ?_, ?_⟩⟩ <;> rfl

/-- C8: `initImagePanoramaViewer(containerId, imagePath)` with a `containerId`
that no element of the document has logs exactly one error, does not throw,
and changes nothing else: no viewer (scene, camera, renderer) is created, no
element gets a canvas or a listener, no `resize` listener is registered and no
animation frame is requested. -/
theorem C8_missing_container_logs_and_aborts {α : Type} [LinearOrderedField α]
    (M : MathLib α) (p : Image.Page α) (containerId imagePath : String)
    (h : ∀ el ∈ p.elements, el.id ≠ containerId) :
    Image.initImagePanoramaViewer M p containerId imagePath =
      ⟨{ p with consoleErrors := p.consoleErrors ++ [Image.containerNotFound containerId] },
        false, false⟩ := by
  have hnone : Image.getElementById p.elements containerId = none := by
    unfold Image.getElementById
    split
    · rfl
    · have hf : p.elements.findIdx? (fun el => el.id = containerId) = none := by
        rw [List.findIdx?_eq_none_iff]
        intro el hel
        simpa using h el hel
      rw [hf]
  unfold Image.initImagePanoramaViewer
  rw [hnone]

/-- Witness for C8: a page whose only element has the id `pano-viewer-0`,
asked for the container `missing`. -/
theorem C8_missing_container_logs_and_aborts_witness :
    (∀ el ∈ (Image.Page.fresh (α := ℚ)
        [{ Image.panoElement none none with id := "pano-viewer-0" }]).elements,
      el.id ≠ "missing") ∧
    Image.initImagePanoramaViewer ⟨id, id, id⟩
        (Image.Page.fresh (α := ℚ) [{ Image.panoElement none none with id := "pano-viewer-0" }])
        "missing" "a_ours.png" =
      ⟨{ Image.Page.fresh (α := ℚ)
            [{ Image.panoElement none none with id := "pano-viewer-0" }] with
          consoleErrors := ["initImagePanoramaViewer: Container 'missing' not found."] },
        false, false⟩ :=
  ⟨by decide, C8_missing_container_logs_and_aborts _ _ _ _ (by decide)⟩

end Pano
